import Mathlib

/-! Cinema tickets: the purchase validator of `TicketService.js`.

A shallow embedding of `src/pairtest/TicketService.js` and `src/pairtest/utils.js`.

* JavaScript numbers that hold ticket counts, prices and totals are modelled as `Int`
  (the counts are integers far below 2^53, where double arithmetic is exact).
* A counts object such as `DEFAULT_TICKET_NUMBER` is an ordered list of
  `(key, value)` entries, in property insertion order, so that `Object.entries`
  and `Object.values` enumerate it the way the engine does.
* The two collaborators are observed through the ordered log of the calls they
  receive; `purchaseTickets` takes the log so far and returns the log afterwards.
-/

namespace CinemaTickets

/-! ## utils.js -/

/-- The keys of `TicketTypes` (utils.js, lines 1-5). -/
inductive TicketType
  | INFANT
  | CHILD
  | ADULT
  deriving DecidableEq, Repr

/-- An object keyed by ticket type: its entries in property insertion order. -/
abbrev TicketCounts := List (TicketType × Int)

/-- The table `TICKET_TYPE_PRICES` (utils.js, lines 7-11). -/
def TICKET_TYPE_PRICES : TicketType → Int
  | .INFANT => 0
  | .CHILD => 10
  | .ADULT => 20

/-- The object `DEFAULT_TICKET_NUMBER` (utils.js, lines 13-17). -/
def DEFAULT_TICKET_NUMBER : TicketCounts :=
  [(.INFANT, 0), (.CHILD, 0), (.ADULT, 0)]

/-! ## Values the service receives -/

/-- Modelled from the spec: the class `lib/TicketTypeRequest.js` is not among the
sources. The spec describes an immutable value pairing a TicketType with a ticket
count; the count is kept as an integer of either sign, and non-negativity is a
hypothesis wherever a property needs it. -/
structure TicketTypeRequest where
  type : TicketType
  noOfTickets : Int
  deriving DecidableEq, Repr

/-- The getter `getTicketType()`. -/
def TicketTypeRequest.getTicketType (r : TicketTypeRequest) : TicketType := r.type

/-- The getter `getNoOfTickets()`. -/
def TicketTypeRequest.getNoOfTickets (r : TicketTypeRequest) : Int := r.noOfTickets

/-- One element of the rest parameter `...ticketTypeRequests`: an instance of
`TicketTypeRequest`, or any other JavaScript value. -/
inductive Argument
  | request (r : TicketTypeRequest)
  | other
  deriving DecidableEq, Repr

/-- The `accountId` argument as the guard of line 24 observes it: a number with an
integral value, or any other value (a fraction, NaN, a string, undefined, ...),
for which `negative` records what `accountId < 0` evaluates to. -/
inductive AccountId
  | integer (n : Int)
  | nonInteger (negative : Bool)
  deriving DecidableEq, Repr

/-- The builtin `Number.isInteger`. -/
def Number_isInteger : AccountId → Bool
  | .integer _ => true
  | .nonInteger _ => false

/-- The comparison `accountId < 0`. -/
def AccountId.ltZero : AccountId → Bool
  | .integer n => decide (n < 0)
  | .nonInteger negative => negative

/-! ## Collaborators and outcome -/

/-- A call received by one of the two collaborators, with its arguments. -/
inductive Call
  | makePayment (accountId : AccountId) (totalAmountToPay : Int)
  | reserveSeat (accountId : AccountId) (totalSeatsToAllocate : Int)
  deriving DecidableEq, Repr

/-- Modelled from the spec: `thirdparty/paymentgateway/TicketPaymentService.js` is
not among the sources. The spec gives `makePayment(accountId, amount) -> void`,
reliable, synchronous and side-effect-only: the call is appended to the log. -/
def TicketPaymentService.makePayment (calls : List Call) (accountId : AccountId)
    (totalAmountToPay : Int) : List Call :=
  calls ++ [Call.makePayment accountId totalAmountToPay]

/-- Modelled from the spec: `thirdparty/seatbooking/SeatReservationService.js` is
not among the sources. The spec gives `reserveSeat(accountId, seatCount) -> void`,
reliable, synchronous and side-effect-only: the call is appended to the log. -/
def SeatReservationService.reserveSeat (calls : List Call) (accountId : AccountId)
    (totalSeatsToAllocate : Int) : List Call :=
  calls ++ [Call.reserveSeat accountId totalSeatsToAllocate]

/-- How a call of `purchaseTickets` ends: it returns (no value), or it throws an
`InvalidPurchaseException` carrying a message. -/
inductive Completion
  | returned
  | InvalidPurchaseException (message : String)
  deriving DecidableEq, Repr

/-- The result of running `purchaseTickets`: how it ended, and the collaborator
log at that point. -/
structure Outcome where
  completion : Completion
  calls : List Call
  deriving DecidableEq, Repr

/-! ## Property access on a counts object -/

/-- Property read `obj[key]`: `none` stands for `undefined`. -/
def getProp (obj : TicketCounts) (key : TicketType) : Option Int :=
  (obj.find? fun e => decide (e.1 = key)).map Prod.snd

/-- The statement `obj[key] += n` on a key the object owns; every copy of
`DEFAULT_TICKET_NUMBER` owns all three keys, and key order is unchanged. -/
def addProp (obj : TicketCounts) (key : TicketType) (n : Int) : TicketCounts :=
  obj.map fun e => if e.1 = key then (e.1, e.2 + n) else e

/-- The comparison `v > n` on a property read (`undefined > n` is false). -/
def jsGt : Option Int → Int → Bool
  | some v, n => decide (v > n)
  | none, _ => false

/-- The comparison `v < n` on a property read (`undefined < n` is false). -/
def jsLt : Option Int → Int → Bool
  | some v, n => decide (v < n)
  | none, _ => false

/-! ## TicketService.js -/

/-- The method `#getNumberOfTicketsPurchasedByType` (lines 79-91). -/
def getNumberOfTicketsPurchasedByType (ticketTypeRequests : List Argument) : TicketCounts :=
  ticketTypeRequests.foldl
    (fun numberOfTicketsPurchasedByType ticketTypeRequest =>
      match ticketTypeRequest with
      | .request r =>
          addProp numberOfTicketsPurchasedByType r.getTicketType r.getNoOfTickets
      | .other => numberOfTicketsPurchasedByType)
    DEFAULT_TICKET_NUMBER

/-- The method `#getTotalNumberOfTicketRequests` (lines 98-103). -/
def getTotalNumberOfTicketRequests (numberOfTicketsByType : TicketCounts) : Int :=
  (numberOfTicketsByType.map Prod.snd).foldl (fun total current => total + current) 0

/-- The method `#getTotalAmountToPay` (lines 110-116). -/
def getTotalAmountToPay (numberOfTicketsByType : TicketCounts) : Int :=
  numberOfTicketsByType.foldl
    (fun total e => total + e.2 * TICKET_TYPE_PRICES e.1) 0

/-- The method `#getNumberOfSeatsToBeReserved` (lines 123-134). -/
def getNumberOfSeatsToBeReserved (numberOfTicketsByType : TicketCounts) : Int :=
  numberOfTicketsByType.foldl
    (fun total e => if e.1 ≠ TicketType.INFANT then total + e.2 else 0) 0

/-- The method `purchaseTickets` (lines 22-72), started on the collaborator log
`calls`. -/
def purchaseTickets (calls : List Call) (accountId : AccountId)
    (ticketTypeRequests : List Argument) : Outcome :=
  if !Number_isInteger accountId || accountId.ltZero then
    ⟨.InvalidPurchaseException "accountId must be an integer greater than 0", calls⟩
  else if ticketTypeRequests.length = 0 then
    ⟨.InvalidPurchaseException "Number of tickets purchased must be greater than 0", calls⟩
  else
    let numberOfTicketsByType := getNumberOfTicketsPurchasedByType ticketTypeRequests
    if (jsGt (getProp numberOfTicketsByType .INFANT) 0 ||
          jsGt (getProp numberOfTicketsByType .CHILD) 0) &&
        jsLt (getProp numberOfTicketsByType .ADULT) 1 then
      ⟨.InvalidPurchaseException "Number of adult tickets must be greater than 0", calls⟩
    else
      let totalNumberOfTicketRequests := getTotalNumberOfTicketRequests numberOfTicketsByType
      if totalNumberOfTicketRequests > 20 then
        ⟨.InvalidPurchaseException
          "Number of tickets purchased must be less than or equal to 20", calls⟩
      else
        let totalAmountToPay := getTotalAmountToPay numberOfTicketsByType
        let calls1 := TicketPaymentService.makePayment calls accountId totalAmountToPay
        let numberOfSeatsToBeReserved := getNumberOfSeatsToBeReserved numberOfTicketsByType
        let calls2 :=
          SeatReservationService.reserveSeat calls1 accountId numberOfSeatsToBeReserved
        ⟨.returned, calls2⟩

/-! ## Vocabulary of the properties -/

/-- The aggregated count of a type: the sum of `getNoOfTickets()` over the
requests of that type in the argument list. -/
def aggregated (ticketType : TicketType) (ticketTypeRequests : List Argument) : Int :=
  (ticketTypeRequests.map fun a =>
    match a with
    | .request r => if r.getTicketType = ticketType then r.getNoOfTickets else 0
    | .other => 0).sum

/-- The calls a run made: what it appended to the log it started on. -/
def callsMade (calls : List Call) (o : Outcome) : List Call :=
  o.calls.drop calls.length

/-- The total ticket count of a batch: the sum of the aggregated counts of the
three types. -/
def totalTickets (ticketTypeRequests : List Argument) : Int :=
  aggregated .INFANT ticketTypeRequests + aggregated .CHILD ticketTypeRequests
    + aggregated .ADULT ticketTypeRequests

/-- The adult-presence condition of the spec on the aggregated counts:
(INFANT > 0 or CHILD > 0) and ADULT < 1. -/
def lacksAdult (ticketTypeRequests : List Argument) : Prop :=
  (aggregated .INFANT ticketTypeRequests > 0 ∨ aggregated .CHILD ticketTypeRequests > 0)
    ∧ aggregated .ADULT ticketTypeRequests < 1

instance (ticketTypeRequests : List Argument) : Decidable (lacksAdult ticketTypeRequests) := by
  unfold lacksAdult; infer_instance

/-- A request for `n` tickets of type `t`, as an argument. -/
def ticket (t : TicketType) (n : Int) : Argument := .request ⟨t, n⟩

/-! ## The module state

The same methods over the state of the module: the counts objects live in a store
and are reached through their address, so that a write to one object is seen
through every reference to it and through no other. -/

/-- The state a call of `purchaseTickets` can reach: the store of counts objects,
addressed by position, and the collaborator log. -/
structure ModuleState where
  objects : List TicketCounts
  calls : List Call
  deriving DecidableEq, Repr

/-- The address of the exported object `DEFAULT_TICKET_NUMBER` (utils.js, line 13). -/
def DEFAULT_TICKET_NUMBER_address : Nat := 0

/-- The state once utils.js is loaded and before any call: the store holds the
object `DEFAULT_TICKET_NUMBER` alone, and no collaborator has been called. -/
def ModuleState.initial : ModuleState := ⟨[DEFAULT_TICKET_NUMBER], []⟩

/-- The object at an address (an address never allocated holds no property). -/
def objectAt (objects : List TicketCounts) (address : Nat) : TicketCounts :=
  objects.getD address []

/-- The call `Object.assign({}, source)`: a new object is allocated at the end of
the store and receives the properties of the source; the result is the store and
the address of the new object. -/
def Object_assign (objects : List TicketCounts) (source : Nat) : List TicketCounts × Nat :=
  (objects ++ [objectAt objects source], objects.length)

/-- The statement `target[key] += n` on the object at an address. -/
def addPropAt (objects : List TicketCounts) (address : Nat) (key : TicketType) (n : Int) :
    List TicketCounts :=
  objects.set address (addProp (objectAt objects address) key n)

/-- The method `#getNumberOfTicketsPurchasedByType` (lines 79-91) on the store: the
store afterwards and the address of the table it returns. -/
def getNumberOfTicketsPurchasedByTypeAt (objects : List TicketCounts)
    (ticketTypeRequests : List Argument) : List TicketCounts × Nat :=
  let fresh := Object_assign objects DEFAULT_TICKET_NUMBER_address
  let numberOfTicketsPurchasedByType := fresh.2
  (ticketTypeRequests.foldl
      (fun store ticketTypeRequest =>
        match ticketTypeRequest with
        | .request r =>
            addPropAt store numberOfTicketsPurchasedByType r.getTicketType r.getNoOfTickets
        | .other => store)
      fresh.1,
    numberOfTicketsPurchasedByType)

/-- The method `#getTotalNumberOfTicketRequests` (lines 98-103) on the store: it
reads the table at the address and writes nothing. -/
def getTotalNumberOfTicketRequestsAt (objects : List TicketCounts) (address : Nat) :
    Int × List TicketCounts :=
  (getTotalNumberOfTicketRequests (objectAt objects address), objects)

/-- The method `#getTotalAmountToPay` (lines 110-116) on the store: it reads the
table at the address and writes nothing. -/
def getTotalAmountToPayAt (objects : List TicketCounts) (address : Nat) :
    Int × List TicketCounts :=
  (getTotalAmountToPay (objectAt objects address), objects)

/-- The method `#getNumberOfSeatsToBeReserved` (lines 123-134) on the store: it
reads the table at the address and writes nothing. -/
def getNumberOfSeatsToBeReservedAt (objects : List TicketCounts) (address : Nat) :
    Int × List TicketCounts :=
  (getNumberOfSeatsToBeReserved (objectAt objects address), objects)

/-- The method `purchaseTickets` (lines 22-72) on the module state: how the call
ends and the state it leaves. -/
def purchaseTicketsIn (s : ModuleState) (accountId : AccountId)
    (ticketTypeRequests : List Argument) : Completion × ModuleState :=
  if !Number_isInteger accountId || accountId.ltZero then
    (.InvalidPurchaseException "accountId must be an integer greater than 0", s)
  else if ticketTypeRequests.length = 0 then
    (.InvalidPurchaseException "Number of tickets purchased must be greater than 0", s)
  else
    let built := getNumberOfTicketsPurchasedByTypeAt s.objects ticketTypeRequests
    let numberOfTicketsByType := built.2
    if (jsGt (getProp (objectAt built.1 numberOfTicketsByType) .INFANT) 0 ||
          jsGt (getProp (objectAt built.1 numberOfTicketsByType) .CHILD) 0) &&
        jsLt (getProp (objectAt built.1 numberOfTicketsByType) .ADULT) 1 then
      (.InvalidPurchaseException "Number of adult tickets must be greater than 0",
        ⟨built.1, s.calls⟩)
    else
      let counted := getTotalNumberOfTicketRequestsAt built.1 numberOfTicketsByType
      if counted.1 > 20 then
        (.InvalidPurchaseException
          "Number of tickets purchased must be less than or equal to 20",
          ⟨counted.2, s.calls⟩)
      else
        let priced := getTotalAmountToPayAt counted.2 numberOfTicketsByType
        let calls1 := TicketPaymentService.makePayment s.calls accountId priced.1
        let seated := getNumberOfSeatsToBeReservedAt priced.2 numberOfTicketsByType
        let calls2 := SeatReservationService.reserveSeat calls1 accountId seated.1
        (.returned, ⟨seated.2, calls2⟩)

/-- The state after a sequence of calls of `purchaseTickets`, made one after the
other from a given state; a call that throws is caught by the caller. -/
def afterCalls (s : ModuleState) (history : List (AccountId × List Argument)) :
    ModuleState :=
  history.foldl (fun state call => (purchaseTicketsIn state call.1 call.2).2) s

/-! ## Further vocabulary -/

/-- The test `ticketTypeRequest instanceof TicketTypeRequest` of line 83. -/
def Argument.isRequest : Argument → Bool
  | .request _ => true
  | .other => false

/-- An argument list with the entries that are no `TicketTypeRequest` removed. -/
def withoutOthers (ticketTypeRequests : List Argument) : List Argument :=
  ticketTypeRequests.filter Argument.isRequest

/-- The messages `purchaseTickets` can fail with, over all inputs. -/
def failureMessages : Set String :=
  {message | ∃ (calls : List Call) (accountId : AccountId) (reqs : List Argument),
    (purchaseTickets calls accountId reqs).completion = .InvalidPurchaseException message}

/-- Every request of the list carries a count that is at least 0. -/
def nonNegativeCounts (ticketTypeRequests : List Argument) : Prop :=
  ∀ r : TicketTypeRequest, Argument.request r ∈ ticketTypeRequests → 0 ≤ r.getNoOfTickets

theorem aggregated_nil (t : TicketType) : aggregated t [] = 0 := rfl

theorem aggregated_cons_other (t : TicketType) (rest : List Argument) :
    aggregated t (Argument.other :: rest) = aggregated t rest := by
  simp [aggregated]

theorem aggregated_cons_request (t : TicketType) (r : TicketTypeRequest)
    (rest : List Argument) :
    aggregated t (Argument.request r :: rest)
      = (if r.type = t then r.noOfTickets else 0) + aggregated t rest := by
  simp [aggregated, TicketTypeRequest.getTicketType, TicketTypeRequest.getNoOfTickets]

/-- The aggregation loop started on any three-key table in the key order of
`DEFAULT_TICKET_NUMBER` adds the per-type sums to the three values. -/
theorem aggregation_loop (reqs : List Argument) (i c a : Int) :
    reqs.foldl
      (fun numberOfTicketsPurchasedByType ticketTypeRequest =>
        match ticketTypeRequest with
        | .request r =>
            addProp numberOfTicketsPurchasedByType r.getTicketType r.getNoOfTickets
        | .other => numberOfTicketsPurchasedByType)
      [(TicketType.INFANT, i), (TicketType.CHILD, c), (TicketType.ADULT, a)]
    = [(TicketType.INFANT, i + aggregated .INFANT reqs),
       (TicketType.CHILD, c + aggregated .CHILD reqs),
       (TicketType.ADULT, a + aggregated .ADULT reqs)] := by
  induction reqs generalizing i c a with
  | nil => simp [aggregated_nil]
  | cons x rest ih =>
    cases x with
    | other => simp only [List.foldl_cons, aggregated_cons_other]; exact ih i c a
    | request r =>
      obtain ⟨t, n⟩ := r
      cases t
      · have hstep : addProp [(TicketType.INFANT, i), (TicketType.CHILD, c), (TicketType.ADULT, a)]
            TicketType.INFANT n
            = [(TicketType.INFANT, i + n), (TicketType.CHILD, c), (TicketType.ADULT, a)] := by
          simp [addProp]
        simp only [List.foldl_cons, TicketTypeRequest.getTicketType,
          TicketTypeRequest.getNoOfTickets, hstep]
        refine (ih _ _ _).trans ?_
        simp [aggregated_cons_request, add_assoc]
      · have hstep : addProp [(TicketType.INFANT, i), (TicketType.CHILD, c), (TicketType.ADULT, a)]
            TicketType.CHILD n
            = [(TicketType.INFANT, i), (TicketType.CHILD, c + n), (TicketType.ADULT, a)] := by
          simp [addProp]
        simp only [List.foldl_cons, TicketTypeRequest.getTicketType,
          TicketTypeRequest.getNoOfTickets, hstep]
        refine (ih _ _ _).trans ?_
        simp [aggregated_cons_request, add_assoc]
      · have hstep : addProp [(TicketType.INFANT, i), (TicketType.CHILD, c), (TicketType.ADULT, a)]
            TicketType.ADULT n
            = [(TicketType.INFANT, i), (TicketType.CHILD, c), (TicketType.ADULT, a + n)] := by
          simp [addProp]
        simp only [List.foldl_cons, TicketTypeRequest.getTicketType,
          TicketTypeRequest.getNoOfTickets, hstep]
        refine (ih _ _ _).trans ?_
        simp [aggregated_cons_request, add_assoc]

/-- The table built by `#getNumberOfTicketsPurchasedByType`, entry by entry. -/
theorem getNumberOfTicketsPurchasedByType_eq (reqs : List Argument) :
    getNumberOfTicketsPurchasedByType reqs
      = [(TicketType.INFANT, aggregated .INFANT reqs),
         (TicketType.CHILD, aggregated .CHILD reqs),
         (TicketType.ADULT, aggregated .ADULT reqs)] := by
  have h := aggregation_loop reqs 0 0 0
  simpa [getNumberOfTicketsPurchasedByType, DEFAULT_TICKET_NUMBER] using h

theorem getTotalNumberOfTicketRequests_three (i c a : Int) :
    getTotalNumberOfTicketRequests
      [(TicketType.INFANT, i), (TicketType.CHILD, c), (TicketType.ADULT, a)] = i + c + a := by
  simp [getTotalNumberOfTicketRequests]

theorem getTotalAmountToPay_three (i c a : Int) :
    getTotalAmountToPay
      [(TicketType.INFANT, i), (TicketType.CHILD, c), (TicketType.ADULT, a)]
      = 20 * a + 10 * c + 0 * i := by
  simp [getTotalAmountToPay, TICKET_TYPE_PRICES]; ring

theorem getNumberOfSeatsToBeReserved_three (i c a : Int) :
    getNumberOfSeatsToBeReserved
      [(TicketType.INFANT, i), (TicketType.CHILD, c), (TicketType.ADULT, a)] = a + c := by
  simp [getNumberOfSeatsToBeReserved]; ring

/-- The whole of `purchaseTickets` over the per-type sums of its arguments. -/
theorem purchaseTickets_eq (calls : List Call) (accountId : AccountId)
    (reqs : List Argument) :
    purchaseTickets calls accountId reqs =
      if Number_isInteger accountId = false ∨ accountId.ltZero = true then
        ⟨.InvalidPurchaseException "accountId must be an integer greater than 0", calls⟩
      else if reqs = [] then
        ⟨.InvalidPurchaseException "Number of tickets purchased must be greater than 0", calls⟩
      else if (aggregated .INFANT reqs > 0 ∨ aggregated .CHILD reqs > 0)
          ∧ aggregated .ADULT reqs < 1 then
        ⟨.InvalidPurchaseException "Number of adult tickets must be greater than 0", calls⟩
      else if aggregated .INFANT reqs + aggregated .CHILD reqs + aggregated .ADULT reqs > 20 then
        ⟨.InvalidPurchaseException
          "Number of tickets purchased must be less than or equal to 20", calls⟩
      else
        ⟨.returned, calls ++
          [Call.makePayment accountId
              (20 * aggregated .ADULT reqs + 10 * aggregated .CHILD reqs
                + 0 * aggregated .INFANT reqs),
           Call.reserveSeat accountId (aggregated .ADULT reqs + aggregated .CHILD reqs)]⟩ := by
  unfold purchaseTickets
  simp only [getNumberOfTicketsPurchasedByType_eq, getTotalNumberOfTicketRequests_three,
    getTotalAmountToPay_three, getNumberOfSeatsToBeReserved_three,
    TicketPaymentService.makePayment, SeatReservationService.reserveSeat]
  by_cases h1 : Number_isInteger accountId = false ∨ accountId.ltZero = true
  · have : (!Number_isInteger accountId || accountId.ltZero) = true := by
      rcases h1 with h | h <;> simp [h]
    simp [this, h1]
  · have : ¬ ((!Number_isInteger accountId || accountId.ltZero) = true) := by
      intro h; apply h1; simpa using h
    simp only [this, h1, if_false]
    by_cases h2 : reqs = []
    · simp [h2]
    · have h2b : ¬ reqs.length = 0 := by simpa using h2
      simp only [h2, h2b, if_false]
      simp [getProp, jsGt, jsLt]

theorem callsMade_append (calls made : List Call) (c : Completion) :
    callsMade calls ⟨c, calls ++ made⟩ = made := by
  simp [callsMade]

/-- A run that returns has made the payment call and then the reservation call,
with the amounts of the per-type sums. -/
theorem purchaseTickets_of_returned (calls : List Call) (accountId : AccountId)
    (reqs : List Argument)
    (h : (purchaseTickets calls accountId reqs).completion = .returned) :
    purchaseTickets calls accountId reqs =
      ⟨.returned, calls ++
        [Call.makePayment accountId
            (20 * aggregated .ADULT reqs + 10 * aggregated .CHILD reqs
              + 0 * aggregated .INFANT reqs),
         Call.reserveSeat accountId (aggregated .ADULT reqs + aggregated .CHILD reqs)]⟩ := by
  rw [purchaseTickets_eq] at h ⊢
  split_ifs at h ⊢
  rfl

/-- A run that throws leaves the collaborator log as it found it. -/
theorem purchaseTickets_of_thrown (calls : List Call) (accountId : AccountId)
    (reqs : List Argument) (message : String)
    (h : (purchaseTickets calls accountId reqs).completion
      = .InvalidPurchaseException message) :
    (purchaseTickets calls accountId reqs).calls = calls := by
  rw [purchaseTickets_eq] at h ⊢
  split_ifs at h ⊢ <;> rfl

/-- Past the accountId guard: the run for an integer accountId that is at least 0. -/
theorem purchaseTickets_integer (calls : List Call) (n : Int) (reqs : List Argument)
    (hn : 0 ≤ n) :
    purchaseTickets calls (.integer n) reqs =
      if reqs = [] then
        ⟨.InvalidPurchaseException "Number of tickets purchased must be greater than 0", calls⟩
      else if (aggregated .INFANT reqs > 0 ∨ aggregated .CHILD reqs > 0)
          ∧ aggregated .ADULT reqs < 1 then
        ⟨.InvalidPurchaseException "Number of adult tickets must be greater than 0", calls⟩
      else if aggregated .INFANT reqs + aggregated .CHILD reqs + aggregated .ADULT reqs > 20 then
        ⟨.InvalidPurchaseException
          "Number of tickets purchased must be less than or equal to 20", calls⟩
      else
        ⟨.returned, calls ++
          [Call.makePayment (.integer n)
              (20 * aggregated .ADULT reqs + 10 * aggregated .CHILD reqs
                + 0 * aggregated .INFANT reqs),
           Call.reserveSeat (.integer n) (aggregated .ADULT reqs + aggregated .CHILD reqs)]⟩ := by
  rw [purchaseTickets_eq]
  have h : ¬ (Number_isInteger (.integer n) = false ∨ (AccountId.integer n).ltZero = true) := by
    simp [Number_isInteger, AccountId.ltZero, hn]
  rw [if_neg h]

/-- Stopped at the accountId guard: the run for a negative integer accountId. -/
theorem purchaseTickets_negative (calls : List Call) (n : Int) (reqs : List Argument)
    (hn : n < 0) :
    purchaseTickets calls (.integer n) reqs =
      ⟨.InvalidPurchaseException "accountId must be an integer greater than 0", calls⟩ := by
  rw [purchaseTickets_eq]
  have h : Number_isInteger (.integer n) = false ∨ (AccountId.integer n).ltZero = true := by
    simp [Number_isInteger, AccountId.ltZero, hn]
  rw [if_pos h]

/-- Stopped at the accountId guard: the run for an accountId that is no integer. -/
theorem purchaseTickets_nonInteger (calls : List Call) (b : Bool) (reqs : List Argument) :
    purchaseTickets calls (.nonInteger b) reqs =
      ⟨.InvalidPurchaseException "accountId must be an integer greater than 0", calls⟩ := by
  rw [purchaseTickets_eq]
  have h : Number_isInteger (.nonInteger b) = false ∨ (AccountId.nonInteger b).ltZero = true := by
    simp [Number_isInteger]
  rw [if_pos h]

/-! ## The contract of `purchaseTickets` -/

/-- C3: whenever purchaseTickets succeeds, the calls it made are exactly two, one
makePayment followed by one reserveSeat, both for the caller's accountId; the log
it started on is kept in front of them unchanged. -/
theorem success_calls_payment_then_reservation (calls : List Call)
    (accountId : AccountId) (reqs : List Argument)
    (h : (purchaseTickets calls accountId reqs).completion = .returned) :
    ∃ amount seats : Int,
      callsMade calls (purchaseTickets calls accountId reqs)
        = [Call.makePayment accountId amount, Call.reserveSeat accountId seats] ∧
      (purchaseTickets calls accountId reqs).calls
        = calls ++ [Call.makePayment accountId amount, Call.reserveSeat accountId seats] := by
  refine ⟨20 * aggregated .ADULT reqs + 10 * aggregated .CHILD reqs
    + 0 * aggregated .INFANT reqs, aggregated .ADULT reqs + aggregated .CHILD reqs, ?_, ?_⟩
  · rw [purchaseTickets_of_returned calls accountId reqs h, callsMade_append]
  · rw [purchaseTickets_of_returned calls accountId reqs h]

/-- Account 1 buying one ADULT ticket after an earlier purchase: the two calls are
appended to the log in the order payment, reservation. -/
theorem success_calls_payment_then_reservation_witness :
    (purchaseTickets [Call.makePayment (.integer 7) 20, Call.reserveSeat (.integer 7) 1]
        (.integer 1) [ticket .ADULT 1]).completion = .returned ∧
    ∃ amount seats : Int,
      callsMade [Call.makePayment (.integer 7) 20, Call.reserveSeat (.integer 7) 1]
          (purchaseTickets [Call.makePayment (.integer 7) 20, Call.reserveSeat (.integer 7) 1]
            (.integer 1) [ticket .ADULT 1])
        = [Call.makePayment (.integer 1) amount, Call.reserveSeat (.integer 1) seats] ∧
      (purchaseTickets [Call.makePayment (.integer 7) 20, Call.reserveSeat (.integer 7) 1]
          (.integer 1) [ticket .ADULT 1]).calls
        = [Call.makePayment (.integer 7) 20, Call.reserveSeat (.integer 7) 1]
          ++ [Call.makePayment (.integer 1) amount, Call.reserveSeat (.integer 1) seats] :=
  ⟨by decide,
   success_calls_payment_then_reservation
     [Call.makePayment (.integer 7) 20, Call.reserveSeat (.integer 7) 1]
     (.integer 1) [ticket .ADULT 1] (by decide)⟩

/-- C4: whenever purchaseTickets fails with an InvalidPurchaseException, whatever
its message, the calls it made are none: the collaborator log is left as it was. -/
theorem failure_makes_no_calls (calls : List Call) (accountId : AccountId)
    (reqs : List Argument) (message : String)
    (h : (purchaseTickets calls accountId reqs).completion
      = .InvalidPurchaseException message) :
    callsMade calls (purchaseTickets calls accountId reqs) = [] ∧
    (purchaseTickets calls accountId reqs).calls = calls := by
  have hc := purchaseTickets_of_thrown calls accountId reqs message h
  refine ⟨?_, hc⟩
  simp [callsMade, hc]

/-- Account 1 asking for 21 ADULT tickets after an earlier purchase: the capacity
error is thrown and the log still holds only the two earlier calls. -/
theorem failure_makes_no_calls_witness :
    (purchaseTickets [Call.makePayment (.integer 7) 20, Call.reserveSeat (.integer 7) 1]
        (.integer 1) [ticket .ADULT 21]).completion
      = .InvalidPurchaseException
          "Number of tickets purchased must be less than or equal to 20" ∧
    callsMade [Call.makePayment (.integer 7) 20, Call.reserveSeat (.integer 7) 1]
        (purchaseTickets [Call.makePayment (.integer 7) 20, Call.reserveSeat (.integer 7) 1]
          (.integer 1) [ticket .ADULT 21]) = [] ∧
    (purchaseTickets [Call.makePayment (.integer 7) 20, Call.reserveSeat (.integer 7) 1]
        (.integer 1) [ticket .ADULT 21]).calls
      = [Call.makePayment (.integer 7) 20, Call.reserveSeat (.integer 7) 1] :=
  ⟨by decide,
   failure_makes_no_calls
     [Call.makePayment (.integer 7) 20, Call.reserveSeat (.integer 7) 1]
     (.integer 1) [ticket .ADULT 21]
     "Number of tickets purchased must be less than or equal to 20" (by decide)⟩

/-- C5: purchaseTickets fails with "accountId must be an integer greater than 0"
exactly when accountId is not an integer or is a negative integer; accountId 0 is
let through, and purchaseTickets(0, one ADULT ticket) succeeds. -/
theorem accountId_error_iff_nonInteger_or_negative (calls : List Call)
    (accountId : AccountId) (reqs : List Argument) :
    ((purchaseTickets calls accountId reqs).completion
        = .InvalidPurchaseException "accountId must be an integer greater than 0"
      ↔ ((∀ n : Int, accountId ≠ .integer n) ∨ ∃ n : Int, accountId = .integer n ∧ n < 0)) ∧
    (purchaseTickets calls (.integer 0) [ticket .ADULT 1]).completion = .returned := by
  constructor
  · cases accountId with
    | integer m =>
      by_cases hm : m < 0
      · rw [purchaseTickets_negative calls m reqs hm]
        exact ⟨fun _ => Or.inr ⟨m, rfl, hm⟩, fun _ => rfl⟩
      · rw [purchaseTickets_integer calls m reqs (not_lt.mp hm)]
        constructor
        · intro h
          split_ifs at h <;> simp at h
        · rintro (h | ⟨k, hk, hneg⟩)
          · exact absurd rfl (h m)
          · cases hk
            exact absurd hneg hm
    | nonInteger b =>
      rw [purchaseTickets_nonInteger]
      exact ⟨fun _ => Or.inl (fun n hn => by cases hn), fun _ => rfl⟩
  · rw [purchaseTickets_integer calls 0 _ (le_refl 0)]
    simp [aggregated, ticket, TicketTypeRequest.getTicketType,
      TicketTypeRequest.getNoOfTickets]

/-- C6: at accountId 0, which is not greater than 0, purchaseTickets with one ADULT
ticket does not throw the accountId error: it returns after charging 20 and
reserving 1 seat for account 0. -/
theorem accountId_zero_is_let_through :
    purchaseTickets [] (.integer 0) [ticket .ADULT 1]
      = ⟨.returned, [Call.makePayment (.integer 0) 20, Call.reserveSeat (.integer 0) 1]⟩ ∧
    (purchaseTickets [] (.integer 0) [ticket .ADULT 1]).completion
      ≠ .InvalidPurchaseException "accountId must be an integer greater than 0" := by
  decide

/-- C7: for every integer accountId that is at least 0, purchaseTickets with no
ticket request fails with "Number of tickets purchased must be greater than 0". -/
theorem empty_request_list_is_rejected (calls : List Call) (n : Int) (hn : 0 ≤ n) :
    (purchaseTickets calls (.integer n) []).completion
      = .InvalidPurchaseException "Number of tickets purchased must be greater than 0" := by
  rw [purchaseTickets_integer calls n [] hn]
  simp

/-- The test "should throw an error if no ticketRequests": account 1, no request. -/
theorem empty_request_list_is_rejected_witness :
    (0 : Int) ≤ 1 ∧
    (purchaseTickets [] (.integer 1) []).completion
      = .InvalidPurchaseException "Number of tickets purchased must be greater than 0" :=
  ⟨by decide, empty_request_list_is_rejected [] 1 (by decide)⟩

theorem aggregated_withoutOthers (t : TicketType) (reqs : List Argument) :
    aggregated t (withoutOthers reqs) = aggregated t reqs := by
  induction reqs with
  | nil => rfl
  | cons x rest ih =>
    cases x with
    | other =>
      have : withoutOthers (Argument.other :: rest) = withoutOthers rest := by
        simp [withoutOthers, Argument.isRequest]
      rw [this, ih, aggregated_cons_other]
    | request r =>
      have : withoutOthers (Argument.request r :: rest)
          = Argument.request r :: withoutOthers rest := by
        simp [withoutOthers, Argument.isRequest]
      rw [this, aggregated_cons_request, aggregated_cons_request, ih]

/-- Two non-empty argument lists with the same per-type sums are treated alike. -/
theorem purchaseTickets_congr (calls : List Call) (accountId : AccountId)
    (reqs1 reqs2 : List Argument) (h1 : reqs1 ≠ []) (h2 : reqs2 ≠ [])
    (h : ∀ t : TicketType, aggregated t reqs1 = aggregated t reqs2) :
    purchaseTickets calls accountId reqs1 = purchaseTickets calls accountId reqs2 := by
  rw [purchaseTickets_eq, purchaseTickets_eq, h .INFANT, h .CHILD, h .ADULT]
  simp only [h1, h2]

/-- A non-empty argument list whose per-type sums are all 0, for an integer
accountId that is at least 0: nothing is charged and no seat is reserved. -/
theorem purchaseTickets_all_zero (calls : List Call) (n : Int) (reqs : List Argument)
    (hn : 0 ≤ n) (hne : reqs ≠ []) (h : ∀ t : TicketType, aggregated t reqs = 0) :
    purchaseTickets calls (.integer n) reqs
      = ⟨.returned, calls ++
          [Call.makePayment (.integer n) 0, Call.reserveSeat (.integer n) 0]⟩ := by
  rw [purchaseTickets_integer calls n reqs hn, h .INFANT, h .CHILD, h .ADULT]
  simp [hne]

/-- C12: for every integer accountId that is at least 0 and every argument list,
the counts table is that of the list with the non-request entries removed; while
requests remain the whole run is the same with or without those entries, and a
non-empty list of non-request entries only is not taken for an empty list: it
returns (charging 0 for 0 seats) where the list without them throws the
empty-list error. -/
theorem non_requests_are_ignored (calls : List Call) (n : Int) (reqs : List Argument)
    (hn : 0 ≤ n) :
    getNumberOfTicketsPurchasedByType reqs
      = getNumberOfTicketsPurchasedByType (withoutOthers reqs) ∧
    (withoutOthers reqs ≠ [] →
      purchaseTickets calls (.integer n) reqs
        = purchaseTickets calls (.integer n) (withoutOthers reqs)) ∧
    (reqs ≠ [] → withoutOthers reqs = [] →
      purchaseTickets calls (.integer n) reqs
        = ⟨.returned, calls ++
            [Call.makePayment (.integer n) 0, Call.reserveSeat (.integer n) 0]⟩ ∧
      (purchaseTickets calls (.integer n) (withoutOthers reqs)).completion
        = .InvalidPurchaseException
            "Number of tickets purchased must be greater than 0") := by
  refine ⟨?_, ?_, ?_⟩
  · rw [getNumberOfTicketsPurchasedByType_eq, getNumberOfTicketsPurchasedByType_eq]
    simp only [aggregated_withoutOthers]
  · intro h
    have hne : reqs ≠ [] := by
      intro he
      apply h
      rw [he]
      rfl
    exact purchaseTickets_congr calls _ reqs (withoutOthers reqs) hne h
      (fun t => (aggregated_withoutOthers t reqs).symm)
  · intro hne hw
    constructor
    · apply purchaseTickets_all_zero calls n reqs hn hne
      intro t
      rw [← aggregated_withoutOthers, hw]
      rfl
    · rw [hw, purchaseTickets_integer calls n [] hn]
      simp

/-- Account 1 buying 2 ADULT tickets with two stray arguments around the request:
the run is that of the request alone, 40 charged and 2 seats reserved; and a single
stray argument alone returns with 0 charged. -/
theorem non_requests_are_ignored_witness :
    (purchaseTickets [] (.integer 1) [Argument.other, ticket .ADULT 2, Argument.other]
        = purchaseTickets [] (.integer 1) [ticket .ADULT 2] ∧
      purchaseTickets [] (.integer 1) [ticket .ADULT 2]
        = ⟨.returned, [Call.makePayment (.integer 1) 40, Call.reserveSeat (.integer 1) 2]⟩) ∧
    purchaseTickets [] (.integer 1) [Argument.other]
      = ⟨.returned, [Call.makePayment (.integer 1) 0, Call.reserveSeat (.integer 1) 0]⟩ :=
  ⟨⟨(non_requests_are_ignored [] 1 [Argument.other, ticket .ADULT 2, Argument.other]
      (by decide)).2.1 (by decide), by decide⟩,
   ((non_requests_are_ignored [] 1 [Argument.other] (by decide)).2.2
      (by decide) (by decide)).1⟩

/-! ## Failure messages -/

/-- The messages of the four `throw` statements, and no other, are reached. -/
theorem failureMessages_eq :
    failureMessages =
      {"accountId must be an integer greater than 0",
       "Number of tickets purchased must be greater than 0",
       "Number of adult tickets must be greater than 0",
       "Number of tickets purchased must be less than or equal to 20"} := by
  ext message
  simp only [failureMessages, Set.mem_setOf_eq, Set.mem_insert_iff, Set.mem_singleton_iff]
  constructor
  · rintro ⟨calls, accountId, reqs, h⟩
    rw [purchaseTickets_eq] at h
    split_ifs at h
    · left; exact (Completion.InvalidPurchaseException.inj h).symm
    · right; left; exact (Completion.InvalidPurchaseException.inj h).symm
    · right; right; left; exact (Completion.InvalidPurchaseException.inj h).symm
    · right; right; right; exact (Completion.InvalidPurchaseException.inj h).symm
  · rintro (h | h | h | h)
    · exact ⟨[], .integer (-1), [], by rw [h]; decide⟩
    · exact ⟨[], .integer 1, [], by rw [h]; decide⟩
    · exact ⟨[], .integer 1, [ticket .INFANT 1], by rw [h]; decide⟩
    · exact ⟨[], .integer 1, [ticket .ADULT 21], by rw [h]; decide⟩

/-- The four messages are pairwise different. -/
theorem failureMessages_ncard : failureMessages.ncard = 4 := by
  rw [failureMessages_eq]
  have h : ({"accountId must be an integer greater than 0",
       "Number of tickets purchased must be greater than 0",
       "Number of adult tickets must be greater than 0",
       "Number of tickets purchased must be less than or equal to 20"} : Set String)
      = ↑({"accountId must be an integer greater than 0",
       "Number of tickets purchased must be greater than 0",
       "Number of adult tickets must be greater than 0",
       "Number of tickets purchased must be less than or equal to 20"} : Finset String) := by
    push_cast
    rfl
  rw [h, Set.ncard_coe_Finset]
  decide

/-- C13, as the spec states it, fails: the set of messages purchaseTickets can fail
with does not have five elements. -/
theorem failure_messages_are_not_five : ¬ failureMessages.ncard = 5 := by
  rw [failureMessages_ncard]
  decide

/-- C13, amended: purchaseTickets fails with an InvalidPurchaseException only, whose
message is one of four fixed messages, each of them reached on some input: the set
of messages it can fail with has exactly four elements. -/
theorem failure_messages_are_four :
    failureMessages =
      {"accountId must be an integer greater than 0",
       "Number of tickets purchased must be greater than 0",
       "Number of adult tickets must be greater than 0",
       "Number of tickets purchased must be less than or equal to 20"} ∧
    failureMessages.ncard = 4 :=
  ⟨failureMessages_eq, failureMessages_ncard⟩

/-! ## The module state across calls -/

theorem objectAt_append_length (objects : List TicketCounts) (t : TicketCounts) :
    objectAt (objects ++ [t]) objects.length = t := by
  simp [objectAt]

theorem objectAt_append_default (objects : List TicketCounts) (t : TicketCounts)
    (h : objectAt objects DEFAULT_TICKET_NUMBER_address = DEFAULT_TICKET_NUMBER) :
    objectAt (objects ++ [t]) DEFAULT_TICKET_NUMBER_address = DEFAULT_TICKET_NUMBER := by
  cases objects with
  | nil => exact absurd h (by decide)
  | cons d tail => simpa [objectAt, DEFAULT_TICKET_NUMBER_address] using h

theorem addPropAt_append_length (objects : List TicketCounts) (t : TicketCounts)
    (key : TicketType) (n : Int) :
    addPropAt (objects ++ [t]) objects.length key n = objects ++ [addProp t key n] := by
  simp [addPropAt, objectAt_append_length]

/-- The aggregation loop on the store writes to the last object only, and writes
there what the loop on a table computes. -/
theorem store_loop (objects : List TicketCounts) (reqs : List Argument) (t : TicketCounts) :
    reqs.foldl
      (fun store ticketTypeRequest =>
        match ticketTypeRequest with
        | .request r => addPropAt store objects.length r.getTicketType r.getNoOfTickets
        | .other => store)
      (objects ++ [t])
    = objects ++
      [reqs.foldl
        (fun numberOfTicketsPurchasedByType ticketTypeRequest =>
          match ticketTypeRequest with
          | .request r =>
              addProp numberOfTicketsPurchasedByType r.getTicketType r.getNoOfTickets
          | .other => numberOfTicketsPurchasedByType)
        t] := by
  induction reqs generalizing t with
  | nil => rfl
  | cons x rest ih =>
    cases x with
    | other => simp only [List.foldl_cons]; exact ih t
    | request r =>
      simp only [List.foldl_cons, addPropAt_append_length]
      exact ih _

/-- While address 0 holds the zeroed table, the aggregation on the store appends
the table of the pure aggregation and returns its address. -/
theorem getNumberOfTicketsPurchasedByTypeAt_eq (objects : List TicketCounts)
    (reqs : List Argument)
    (h : objectAt objects DEFAULT_TICKET_NUMBER_address = DEFAULT_TICKET_NUMBER) :
    getNumberOfTicketsPurchasedByTypeAt objects reqs
      = (objects ++ [getNumberOfTicketsPurchasedByType reqs], objects.length) := by
  simp only [getNumberOfTicketsPurchasedByTypeAt, Object_assign, h, store_loop,
    getNumberOfTicketsPurchasedByType]

/-- While address 0 holds the zeroed table, a run on the module state ends as the
run on the log does, leaves the same log, and leaves address 0 as it was. -/
theorem purchaseTicketsIn_eq (s : ModuleState) (accountId : AccountId)
    (reqs : List Argument)
    (h : objectAt s.objects DEFAULT_TICKET_NUMBER_address = DEFAULT_TICKET_NUMBER) :
    (purchaseTicketsIn s accountId reqs).1 = (purchaseTickets s.calls accountId reqs).completion ∧
    (purchaseTicketsIn s accountId reqs).2.calls = (purchaseTickets s.calls accountId reqs).calls ∧
    objectAt (purchaseTicketsIn s accountId reqs).2.objects DEFAULT_TICKET_NUMBER_address
      = DEFAULT_TICKET_NUMBER := by
  have hd := objectAt_append_default s.objects (getNumberOfTicketsPurchasedByType reqs) h
  unfold purchaseTicketsIn purchaseTickets
  simp only [getNumberOfTicketsPurchasedByTypeAt_eq s.objects reqs h, objectAt_append_length,
    getTotalNumberOfTicketRequestsAt, getTotalAmountToPayAt, getNumberOfSeatsToBeReservedAt]
  split_ifs <;> exact ⟨rfl, rfl, by first | exact h | exact hd⟩

/-- Address 0 holds the zeroed table after any sequence of calls. -/
theorem afterCalls_default (s : ModuleState) (history : List (AccountId × List Argument))
    (h : objectAt s.objects DEFAULT_TICKET_NUMBER_address = DEFAULT_TICKET_NUMBER) :
    objectAt (afterCalls s history).objects DEFAULT_TICKET_NUMBER_address
      = DEFAULT_TICKET_NUMBER := by
  induction history generalizing s with
  | nil => exact h
  | cons call rest ih =>
    exact ih _ (purchaseTicketsIn_eq s call.1 call.2 h).2.2

/-- A run does not read the log it is started on: it only appends to it. -/
theorem purchaseTickets_log (calls : List Call) (accountId : AccountId)
    (reqs : List Argument) :
    purchaseTickets calls accountId reqs
      = ⟨(purchaseTickets [] accountId reqs).completion,
         calls ++ (purchaseTickets [] accountId reqs).calls⟩ := by
  rw [purchaseTickets_eq, purchaseTickets_eq]
  split_ifs <;> simp

/-- C14: purchaseTickets carries no state from one call to the next. From the state
in which the module is loaded and after any sequence of earlier calls: the
aggregation builds its table in a newly allocated object and leaves every earlier
object as it was; after the call, successful or failed, DEFAULT_TICKET_NUMBER still
has its three keys at 0; the counting, pricing and seat derivations leave the store
unchanged and return the same totals when applied a second time; and the call ends
the same way and makes the same collaborator calls as the same call made first. -/
theorem no_state_carried_between_calls :
    (∀ (history : List (AccountId × List Argument)) (reqs : List Argument),
      getNumberOfTicketsPurchasedByTypeAt (afterCalls ModuleState.initial history).objects reqs
        = ((afterCalls ModuleState.initial history).objects
            ++ [getNumberOfTicketsPurchasedByType reqs],
           (afterCalls ModuleState.initial history).objects.length) ∧
      (afterCalls ModuleState.initial history).objects.length
        ≠ DEFAULT_TICKET_NUMBER_address) ∧
    (∀ (history : List (AccountId × List Argument)) (accountId : AccountId)
        (reqs : List Argument),
      objectAt (purchaseTicketsIn (afterCalls ModuleState.initial history) accountId reqs).2.objects
          DEFAULT_TICKET_NUMBER_address
        = [(TicketType.INFANT, 0), (TicketType.CHILD, 0), (TicketType.ADULT, 0)]) ∧
    (∀ (objects : List TicketCounts) (address : Nat),
      (getTotalNumberOfTicketRequestsAt objects address).2 = objects ∧
      (getTotalAmountToPayAt objects address).2 = objects ∧
      (getNumberOfSeatsToBeReservedAt objects address).2 = objects ∧
      (getTotalNumberOfTicketRequestsAt
          (getTotalNumberOfTicketRequestsAt objects address).2 address).1
        = (getTotalNumberOfTicketRequestsAt objects address).1 ∧
      (getTotalAmountToPayAt (getTotalAmountToPayAt objects address).2 address).1
        = (getTotalAmountToPayAt objects address).1 ∧
      (getNumberOfSeatsToBeReservedAt
          (getNumberOfSeatsToBeReservedAt objects address).2 address).1
        = (getNumberOfSeatsToBeReservedAt objects address).1) ∧
    (∀ (history : List (AccountId × List Argument)) (accountId : AccountId)
        (reqs : List Argument),
      (purchaseTicketsIn (afterCalls ModuleState.initial history) accountId reqs).1
        = (purchaseTicketsIn ModuleState.initial accountId reqs).1 ∧
      (purchaseTicketsIn (afterCalls ModuleState.initial history) accountId reqs).2.calls
        = (afterCalls ModuleState.initial history).calls
          ++ (purchaseTicketsIn ModuleState.initial accountId reqs).2.calls) := by
  have h0 : objectAt ModuleState.initial.objects DEFAULT_TICKET_NUMBER_address
      = DEFAULT_TICKET_NUMBER := rfl
  have hinv : ∀ history : List (AccountId × List Argument),
      objectAt (afterCalls ModuleState.initial history).objects DEFAULT_TICKET_NUMBER_address
        = DEFAULT_TICKET_NUMBER :=
    fun history => afterCalls_default ModuleState.initial history h0
  refine ⟨?_, ?_, ?_, ?_⟩
  · intro history reqs
    refine ⟨getNumberOfTicketsPurchasedByTypeAt_eq _ reqs (hinv history), ?_⟩
    intro hlen
    have hnil : (afterCalls ModuleState.initial history).objects = [] :=
      List.length_eq_zero.mp hlen
    have h := hinv history
    rw [hnil] at h
    exact absurd h (by decide)
  · intro history accountId reqs
    exact (purchaseTicketsIn_eq _ accountId reqs (hinv history)).2.2
  · intro objects address
    exact ⟨rfl, rfl, rfl, rfl, rfl, rfl⟩
  · intro history accountId reqs
    obtain ⟨hc, hl, _⟩ := purchaseTicketsIn_eq _ accountId reqs (hinv history)
    obtain ⟨hc0, hl0, _⟩ := purchaseTicketsIn_eq ModuleState.initial accountId reqs h0
    rw [hc, hl, hc0, hl0, purchaseTickets_log]
    exact ⟨rfl, rfl⟩

/-- Account 1 buying 5 ADULT + 1 CHILD + 2 INFANT after a purchase by account 7 and
a refused call: address 0 still holds the zeroed table, and the call ends and
charges as it does when made first. -/
theorem no_state_carried_between_calls_witness :
    objectAt (purchaseTicketsIn
        (afterCalls ModuleState.initial
          [(.integer 7, [ticket .ADULT 3, ticket .INFANT 1]), (.integer 7, [ticket .CHILD 2])])
        (.integer 1) [ticket .ADULT 5, ticket .CHILD 1, ticket .INFANT 2]).2.objects
        DEFAULT_TICKET_NUMBER_address
      = [(TicketType.INFANT, 0), (TicketType.CHILD, 0), (TicketType.ADULT, 0)] ∧
    (purchaseTicketsIn
        (afterCalls ModuleState.initial
          [(.integer 7, [ticket .ADULT 3, ticket .INFANT 1]), (.integer 7, [ticket .CHILD 2])])
        (.integer 1) [ticket .ADULT 5, ticket .CHILD 1, ticket .INFANT 2]).1
      = (purchaseTicketsIn ModuleState.initial (.integer 1)
          [ticket .ADULT 5, ticket .CHILD 1, ticket .INFANT 2]).1 ∧
    purchaseTicketsIn ModuleState.initial (.integer 1)
        [ticket .ADULT 5, ticket .CHILD 1, ticket .INFANT 2]
      = (.returned,
          ⟨[DEFAULT_TICKET_NUMBER,
             [(TicketType.INFANT, 2), (TicketType.CHILD, 1), (TicketType.ADULT, 5)]],
           [Call.makePayment (.integer 1) 110, Call.reserveSeat (.integer 1) 6]⟩) :=
  ⟨no_state_carried_between_calls.2.1
      [(.integer 7, [ticket .ADULT 3, ticket .INFANT 1]), (.integer 7, [ticket .CHILD 2])]
      (.integer 1) [ticket .ADULT 5, ticket .CHILD 1, ticket .INFANT 2],
   (no_state_carried_between_calls.2.2.2
      [(.integer 7, [ticket .ADULT 3, ticket .INFANT 1]), (.integer 7, [ticket .CHILD 2])]
      (.integer 1) [ticket .ADULT 5, ticket .CHILD 1, ticket .INFANT 2]).1,
   by decide⟩

/-! ## Successful purchases -/

/-- What a run that returns has checked. -/
theorem purchaseTickets_returned_inv (calls : List Call) (accountId : AccountId)
    (reqs : List Argument)
    (h : (purchaseTickets calls accountId reqs).completion = .returned) :
    ∃ n : Int, accountId = .integer n ∧ 0 ≤ n ∧ reqs ≠ [] ∧ ¬ lacksAdult reqs
      ∧ totalTickets reqs ≤ 20 := by
  cases accountId with
  | nonInteger b =>
    rw [purchaseTickets_nonInteger] at h
    exact absurd h (by simp)
  | integer m =>
    by_cases hm : m < 0
    · rw [purchaseTickets_negative calls m reqs hm] at h
      exact absurd h (by simp)
    · rw [purchaseTickets_integer calls m reqs (not_lt.mp hm)] at h
      split_ifs at h with h2 h3 h4
      exact ⟨m, rfl, not_lt.mp hm, h2, h3, not_lt.mp h4⟩

theorem aggregated_nonneg (t : TicketType) (reqs : List Argument)
    (h : nonNegativeCounts reqs) : 0 ≤ aggregated t reqs := by
  induction reqs with
  | nil => simp [aggregated_nil]
  | cons x rest ih =>
    have hrest : nonNegativeCounts rest := fun r hr => h r (List.mem_cons_of_mem _ hr)
    cases x with
    | other => rw [aggregated_cons_other]; exact ih hrest
    | request r =>
      rw [aggregated_cons_request]
      have hr : 0 ≤ r.noOfTickets := h r (List.mem_cons_self _ _)
      have := ih hrest
      split_ifs <;> omega

/-- C15: for every input on which purchaseTickets succeeds and whose requests all
carry counts that are at least 0, the accountId is an integer that is at least 0
and is the one passed to both collaborators, the amount passed to makePayment lies
between 0 and 400, and the seat count passed to reserveSeat lies between 0 and 20. -/
theorem collaborator_arguments_are_bounded (calls : List Call) (accountId : AccountId)
    (reqs : List Argument)
    (h : (purchaseTickets calls accountId reqs).completion = .returned)
    (hnn : nonNegativeCounts reqs) :
    ∃ n amount seats : Int, accountId = .integer n ∧ 0 ≤ n ∧
      callsMade calls (purchaseTickets calls accountId reqs)
        = [Call.makePayment (.integer n) amount, Call.reserveSeat (.integer n) seats] ∧
      0 ≤ amount ∧ amount ≤ 400 ∧ 0 ≤ seats ∧ seats ≤ 20 := by
  obtain ⟨n, hacc, hn, _, _, htot⟩ := purchaseTickets_returned_inv calls accountId reqs h
  have hi := aggregated_nonneg .INFANT reqs hnn
  have hc := aggregated_nonneg .CHILD reqs hnn
  have ha := aggregated_nonneg .ADULT reqs hnn
  unfold totalTickets at htot
  refine ⟨n, 20 * aggregated .ADULT reqs + 10 * aggregated .CHILD reqs
    + 0 * aggregated .INFANT reqs, aggregated .ADULT reqs + aggregated .CHILD reqs,
    hacc, hn, ?_, ?_, ?_, ?_, ?_⟩
  · rw [purchaseTickets_of_returned calls accountId reqs h, callsMade_append, hacc]
  · omega
  · omega
  · omega
  · omega

/-- Account 1 buying 20 ADULT tickets: the purchase succeeds with the largest
amount, 400, and the largest seat count, 20. -/
theorem collaborator_arguments_are_bounded_witness :
    (purchaseTickets [] (.integer 1) [ticket .ADULT 20]).completion = .returned ∧
    purchaseTickets [] (.integer 1) [ticket .ADULT 20]
      = ⟨.returned, [Call.makePayment (.integer 1) 400, Call.reserveSeat (.integer 1) 20]⟩ ∧
    ∃ n amount seats : Int, AccountId.integer 1 = .integer n ∧ 0 ≤ n ∧
      callsMade [] (purchaseTickets [] (.integer 1) [ticket .ADULT 20])
        = [Call.makePayment (.integer n) amount, Call.reserveSeat (.integer n) seats] ∧
      0 ≤ amount ∧ amount ≤ 400 ∧ 0 ≤ seats ∧ seats ≤ 20 :=
  ⟨by decide, by decide,
   collaborator_arguments_are_bounded [] (.integer 1) [ticket .ADULT 20] (by decide)
     (by
       intro r hr
       simp only [ticket, List.mem_singleton, Argument.request.injEq] at hr
       subst hr
       decide)⟩

/-- C16: for every input on which purchaseTickets succeeds, whose requests all carry
counts that are at least 0 and whose total number of tickets is above 0, the sum of
the ADULT counts is at least 1, the seat count reserved is at least 1 and the
amount paid is at least 20. -/
theorem tickets_come_with_an_adult (calls : List Call) (accountId : AccountId)
    (reqs : List Argument)
    (h : (purchaseTickets calls accountId reqs).completion = .returned)
    (hnn : nonNegativeCounts reqs) (hpos : totalTickets reqs > 0) :
    1 ≤ aggregated .ADULT reqs ∧
    ∃ amount seats : Int,
      callsMade calls (purchaseTickets calls accountId reqs)
        = [Call.makePayment accountId amount, Call.reserveSeat accountId seats] ∧
      1 ≤ seats ∧ 20 ≤ amount := by
  obtain ⟨n, _, _, _, hadult, _⟩ := purchaseTickets_returned_inv calls accountId reqs h
  have hi := aggregated_nonneg .INFANT reqs hnn
  have hc := aggregated_nonneg .CHILD reqs hnn
  have ha := aggregated_nonneg .ADULT reqs hnn
  unfold totalTickets at hpos
  unfold lacksAdult at hadult
  have hA : 1 ≤ aggregated .ADULT reqs := by
    by_contra hlt
    have hzero : aggregated .ADULT reqs < 1 := not_le.mp hlt
    have hyoung : ¬ (aggregated .INFANT reqs > 0 ∨ aggregated .CHILD reqs > 0) :=
      fun hy => hadult ⟨hy, hzero⟩
    have h1 : ¬ aggregated .INFANT reqs > 0 := fun hx => hyoung (Or.inl hx)
    have h2 : ¬ aggregated .CHILD reqs > 0 := fun hx => hyoung (Or.inr hx)
    omega
  refine ⟨hA, 20 * aggregated .ADULT reqs + 10 * aggregated .CHILD reqs
    + 0 * aggregated .INFANT reqs, aggregated .ADULT reqs + aggregated .CHILD reqs,
    ?_, ?_, ?_⟩
  · rw [purchaseTickets_of_returned calls accountId reqs h, callsMade_append]
  · omega
  · omega

/-- Account 1 buying 1 ADULT + 2 INFANT tickets: 1 seat is reserved and 20 is paid,
the least a purchase with tickets can reserve and pay. -/
theorem tickets_come_with_an_adult_witness :
    purchaseTickets [] (.integer 1) [ticket .ADULT 1, ticket .INFANT 2]
      = ⟨.returned, [Call.makePayment (.integer 1) 20, Call.reserveSeat (.integer 1) 1]⟩ ∧
    totalTickets [ticket .ADULT 1, ticket .INFANT 2] > 0 ∧
    1 ≤ aggregated .ADULT [ticket .ADULT 1, ticket .INFANT 2] ∧
    ∃ amount seats : Int,
      callsMade [] (purchaseTickets [] (.integer 1) [ticket .ADULT 1, ticket .INFANT 2])
        = [Call.makePayment (.integer 1) amount, Call.reserveSeat (.integer 1) seats] ∧
      1 ≤ seats ∧ 20 ≤ amount :=
  ⟨by decide, by decide,
   tickets_come_with_an_adult [] (.integer 1) [ticket .ADULT 1, ticket .INFANT 2]
     (by decide)
     (by
       intro r hr
       simp only [ticket, List.mem_cons, Argument.request.injEq, List.mem_singleton,
         List.not_mem_nil, or_false] at hr
       rcases hr with hr | hr <;> subst hr <;> decide)
     (by decide)⟩

end CinemaTickets
